import Mathlib

/-!
# Verification of the luminance-gl pipeline / binding-stack subsystem

Shallow embedding of `src/luminance-gl/src/pipeline.rs` (the binding stack,
the `Pipeline` bind operations, the `Drop` impls of the bound capabilities,
`Builder`, and the render-state application of `RenderGate::render`),
together with the uniform-type table of `Uniformable for Uniform<&BoundTexture>`.

The `GraphicsState` record and its setters live in `src/luminance-gl/src/state.rs`,
which is not among the provided sources; they are modelled from the spec
(see the doc comments below).  Machine counters (`u32`) are modelled as `Nat`:
the source performs only increments and the spec treats the counters as
unbounded monotone integers; a `u32` overflow aborts the Rust program rather
than producing an id, and is outside the sequences considered here.
-/

namespace Luminance

/-- `luminance::blending::BlendingState` (used as `BlendingState::On/Off` in
`pipeline.rs`). -/
inductive BlendingState where
  | On
  | Off
deriving DecidableEq, Repr

/-- `luminance::depth_test::DepthTest` (used as `DepthTest::On/Off`). -/
inductive DepthTest where
  | On
  | Off
deriving DecidableEq, Repr

/-- `luminance::face_culling::FaceCullingState` (used as
`FaceCullingState::On/Off`). -/
inductive FaceCullingState where
  | On
  | Off
deriving DecidableEq, Repr

/-- `luminance::pixel::Type`, imported as `PxType` in `pipeline.rs`.  The five
variants are pinned by the exhaustive match of `Uniformable::ty` in
`pipeline.rs` lines 275-299. -/
inductive PxType where
  | NormIntegral
  | NormUnsigned
  | Integral
  | Unsigned
  | Floating
deriving DecidableEq, Repr

/-- `luminance::texture::Dim`; the four variants are pinned by the exhaustive
match of `Uniformable::ty` in `pipeline.rs` lines 275-299. -/
inductive Dim where
  | Dim1
  | Dim2
  | Dim3
  | Cubemap
deriving DecidableEq, Repr

/-- `luminance::shader::program2::Type`, imported as `UniformType` in
`pipeline.rs`; variants copied from `src/luminance/src/shader/program2.rs`. -/
inductive UniformType where
  | Int
  | UInt
  | Float
  | Bool
  | IVec2
  | IVec3
  | IVec4
  | UIVec2
  | UIVec3
  | UIVec4
  | Vec2
  | Vec3
  | Vec4
  | BVec2
  | BVec3
  | BVec4
  | M22
  | M33
  | M44
  | ISampler1D
  | ISampler2D
  | ISampler3D
  | UISampler1D
  | UISampler2D
  | UISampler3D
  | Sampler1D
  | Sampler2D
  | Sampler3D
  | ICubemap
  | UICubemap
  | Cubemap
  | BufferBinding
deriving DecidableEq, Repr

/-- Update an association list at a key, overwriting an existing entry or
appending a fresh one.  Used to model per-key hardware state ("bound texture
per unit", "buffer bound per binding point"). -/
def updateAssoc {α : Type} : List (Nat × α) → Nat → α → List (Nat × α)
  | [], k, v => [(k, v)]
  | (k0, v0) :: rest, k, v =>
      if k0 = k then (k, v) :: rest else (k0, v0) :: updateAssoc rest k v

/-- Lookup in an association list. -/
def lookupAssoc {α : Type} : List (Nat × α) → Nat → Option α
  | [], _ => none
  | (k0, v0) :: rest, k => if k0 = k then some v0 else lookupAssoc rest k

/-- Modelled from the spec: `GraphicsState` (`src/luminance-gl/src/state.rs` is
not among the sources).  Per spec §2/§3 it is "the single mutable record of
current hardware binding state (bound texture per unit, active program,
blend/depth/cull flags)", "mutated only through explicit setter operations
(set texture unit, bind texture, bind buffer base, use program, set
blend/depth/cull state)".  Driver handles are opaque integers (spec §6), and
the blending equation/factors, depth comparison and culling order/mode are
opaque parameter values, modelled as `Nat`. -/
structure GraphicsState where
  bound_draw_framebuffer : Nat
  current_texture_unit : Nat
  /-- bound texture per unit: unit id maps to (target, texture handle). -/
  bound_textures : List (Nat × Nat × Nat)
  /-- buffer bound per indexed binding point: binding id maps to buffer handle. -/
  bound_buffer_bases : List (Nat × Nat)
  current_program : Nat
  blending_state : BlendingState
  blending_equation : Nat
  blending_src_factor : Nat
  blending_dst_factor : Nat
  depth_test : DepthTest
  depth_test_comparison : Nat
  face_culling_state : FaceCullingState
  face_culling_order : Nat
  face_culling_mode : Nat
deriving DecidableEq, Repr

namespace GraphicsState

/-- Modelled from the spec: setter "set texture unit" (§3, §6). -/
def set_texture_unit (g : GraphicsState) (unit : Nat) : GraphicsState :=
  { g with current_texture_unit := unit }

/-- Modelled from the spec: setter "bind texture object to target" (§6); the
texture is recorded at the currently active texture unit ("bound texture per
unit", §2). -/
def bind_texture (g : GraphicsState) (target handle : Nat) : GraphicsState :=
  { g with
    bound_textures :=
      updateAssoc g.bound_textures g.current_texture_unit (target, handle) }

/-- Modelled from the spec: setter "bind buffer object to indexed binding
point" (§6). -/
def bind_buffer_base (g : GraphicsState) (handle binding : Nat) : GraphicsState :=
  { g with
    bound_buffer_bases := updateAssoc g.bound_buffer_bases binding handle }

/-- Modelled from the spec: setter "set active program" (§6). -/
def use_program (g : GraphicsState) (handle : Nat) : GraphicsState :=
  { g with current_program := handle }

/-- Modelled from the spec: binding the draw framebuffer (`Builder::pipeline`
calls `state.bind_draw_framebuffer(framebuffer.handle())`). -/
def bind_draw_framebuffer (g : GraphicsState) (handle : Nat) : GraphicsState :=
  { g with bound_draw_framebuffer := handle }

/-- Modelled from the spec: "set blend … enable flags" (§6). -/
def set_blending_state (g : GraphicsState) (s : BlendingState) : GraphicsState :=
  { g with blending_state := s }

/-- Modelled from the spec: blend equation setter (§6). -/
def set_blending_equation (g : GraphicsState) (e : Nat) : GraphicsState :=
  { g with blending_equation := e }

/-- Modelled from the spec: blend function (source/destination factor) setter
(§6). -/
def set_blending_func (g : GraphicsState) (src dst : Nat) : GraphicsState :=
  { g with blending_src_factor := src, blending_dst_factor := dst }

/-- Modelled from the spec: depth-test enable setter (§6). -/
def set_depth_test (g : GraphicsState) (d : DepthTest) : GraphicsState :=
  { g with depth_test := d }

/-- Modelled from the spec: depth-test comparison setter (§6). -/
def set_depth_test_comparison (g : GraphicsState) (c : Nat) : GraphicsState :=
  { g with depth_test_comparison := c }

/-- Modelled from the spec: face-culling enable setter (§6). -/
def set_face_culling_state (g : GraphicsState) (s : FaceCullingState) : GraphicsState :=
  { g with face_culling_state := s }

/-- Modelled from the spec: face-culling winding-order setter (§6). -/
def set_face_culling_order (g : GraphicsState) (o : Nat) : GraphicsState :=
  { g with face_culling_order := o }

/-- Modelled from the spec: face-culling mode setter (§6). -/
def set_face_culling_mode (g : GraphicsState) (m : Nat) : GraphicsState :=
  { g with face_culling_mode := m }

end GraphicsState

/-- `BindingStack` (`pipeline.rs` lines 37-43).  The Rust struct holds the
graphics state behind `Rc<RefCell<GraphicsState>>`; the shared mutable cell is
embedded by explicit state passing. -/
structure BindingStack where
  state : GraphicsState
  next_texture_unit : Nat
  free_texture_units : List Nat
  next_buffer_binding : Nat
  free_buffer_bindings : List Nat
deriving DecidableEq, Repr

namespace BindingStack

/-- `BindingStack::new` (`pipeline.rs` lines 47-55). -/
def new (state : GraphicsState) : BindingStack :=
  { state := state
    next_texture_unit := 0
    free_texture_units := []
    next_buffer_binding := 0
    free_buffer_bindings := [] }

/-- The texture-unit acquisition of `Bind<Texture>::bind` (`pipeline.rs` lines
180-185): `free_texture_units.pop().unwrap_or_else(|| { let unit =
next_texture_unit; next_texture_unit += 1; unit })`.  `Vec::pop` removes the
most recently pushed element; the Lean list head models the `Vec` tail. -/
def acquire_texture_unit (bs : BindingStack) : Nat × BindingStack :=
  match bs.free_texture_units with
  | unit :: rest => (unit, { bs with free_texture_units := rest })
  | [] =>
      (bs.next_texture_unit,
        { bs with next_texture_unit := bs.next_texture_unit + 1 })

/-- The buffer-binding acquisition of `Bind<Buffer>::bind` (`pipeline.rs`
lines 208-213). -/
def acquire_buffer_binding (bs : BindingStack) : Nat × BindingStack :=
  match bs.free_buffer_bindings with
  | binding :: rest => (binding, { bs with free_buffer_bindings := rest })
  | [] =>
      (bs.next_buffer_binding,
        { bs with next_buffer_binding := bs.next_buffer_binding + 1 })

end BindingStack

/-- `BoundTexture` (`pipeline.rs` lines 228-237): holds the occupied unit; the
stack reference and the phantom type parameters are represented by explicit
state passing. -/
structure BoundTexture where
  unit : Nat
deriving DecidableEq, Repr

/-- `BoundBuffer` (`pipeline.rs` lines 309-313). -/
structure BoundBuffer where
  binding : Nat
deriving DecidableEq, Repr

namespace Pipeline

/-- `impl Bind<Texture> for Pipeline` — `bind` (`pipeline.rs` lines 177-194):
acquire a unit, `set_texture_unit(unit)`, `bind_texture(target, handle)`,
return `Ok(BoundTexture::new(_, unit))`.  `type Err = ()`. -/
def bindTexture (bs : BindingStack) (target handle : Nat) :
    Except Unit (BoundTexture × BindingStack) :=
  let r := bs.acquire_texture_unit
  let st := (r.2.state.set_texture_unit r.1).bind_texture target handle
  Except.ok ({ unit := r.1 }, { r.2 with state := st })

/-- `impl Bind<Buffer> for Pipeline` — `bind` (`pipeline.rs` lines 205-223):
acquire a binding, `bind_buffer_base(handle, binding)`, return
`Ok(BoundBuffer::new(_, binding))`.  `type Err = ()`. -/
def bindBuffer (bs : BindingStack) (handle : Nat) :
    Except Unit (BoundBuffer × BindingStack) :=
  let r := bs.acquire_buffer_binding
  let st := r.2.state.bind_buffer_base handle r.1
  Except.ok ({ binding := r.1 }, { r.2 with state := st })

end Pipeline

namespace BoundTexture

/-- `impl Drop for BoundTexture` (`pipeline.rs` lines 260-264): push the unit
onto `free_texture_units`. -/
def drop (bt : BoundTexture) (bs : BindingStack) : BindingStack :=
  { bs with free_texture_units := bt.unit :: bs.free_texture_units }

end BoundTexture

namespace BoundBuffer

/-- `impl Drop for BoundBuffer` (`pipeline.rs` lines 326-330): push the
binding onto `free_buffer_bindings`. -/
def drop (bb : BoundBuffer) (bs : BindingStack) : BindingStack :=
  { bs with free_buffer_bindings := bb.binding :: bs.free_buffer_bindings }

end BoundBuffer

/-- `Uniformable for Uniform<&BoundTexture>::ty` (`pipeline.rs` lines
274-300): the uniform type of a bound texture as a function of
`(S::sample_type(), D::dim())`; the twenty match arms are copied verbatim. -/
def boundTextureTy (s : PxType) (d : Dim) : UniformType :=
  match s, d with
  | .NormIntegral, .Dim1 => .Sampler1D
  | .NormUnsigned, .Dim1 => .Sampler1D
  | .Integral, .Dim1 => .ISampler1D
  | .Unsigned, .Dim1 => .UISampler1D
  | .Floating, .Dim1 => .Sampler1D
  | .NormIntegral, .Dim2 => .Sampler2D
  | .NormUnsigned, .Dim2 => .Sampler2D
  | .Integral, .Dim2 => .ISampler2D
  | .Unsigned, .Dim2 => .UISampler2D
  | .Floating, .Dim2 => .Sampler2D
  | .NormIntegral, .Dim3 => .Sampler3D
  | .NormUnsigned, .Dim3 => .Sampler3D
  | .Integral, .Dim3 => .ISampler3D
  | .Unsigned, .Dim3 => .UISampler3D
  | .Floating, .Dim3 => .Sampler3D
  | .NormIntegral, .Cubemap => .Cubemap
  | .NormUnsigned, .Cubemap => .Cubemap
  | .Integral, .Cubemap => .ICubemap
  | .Unsigned, .Cubemap => .UICubemap
  | .Floating, .Cubemap => .Cubemap

/-- `Uniformable for Uniform<&BoundBuffer>::ty` (`pipeline.rs` lines
334-336). -/
def boundBufferTy : UniformType := .BufferBinding

/-- The plain sampler type for a dimension, per spec §4.4. -/
def plainSampler (d : Dim) : UniformType :=
  match d with
  | .Dim1 => .Sampler1D
  | .Dim2 => .Sampler2D
  | .Dim3 => .Sampler3D
  | .Cubemap => .Cubemap

/-- The signed-integer sampler variant for a dimension, per spec §4.4. -/
def signedSampler (d : Dim) : UniformType :=
  match d with
  | .Dim1 => .ISampler1D
  | .Dim2 => .ISampler2D
  | .Dim3 => .ISampler3D
  | .Cubemap => .ICubemap

/-- The unsigned-integer sampler variant for a dimension, per spec §4.4. -/
def unsignedSampler (d : Dim) : UniformType :=
  match d with
  | .Dim1 => .UISampler1D
  | .Dim2 => .UISampler2D
  | .Dim3 => .UISampler3D
  | .Cubemap => .UICubemap

/-- Modelled from the spec: the fixed table of §4.4 —
"normalized-integral/unsigned/floating samples map to the plain sampler type
for that dimension; pure integral maps to the signed-integer sampler variant;
pure unsigned maps to the unsigned-integer sampler variant". -/
def specSamplerTy (s : PxType) (d : Dim) : UniformType :=
  match s with
  | .NormIntegral => plainSampler d
  | .NormUnsigned => plainSampler d
  | .Floating => plainSampler d
  | .Integral => signedSampler d
  | .Unsigned => unsignedSampler d

/-- `FaceCulling` value (order + mode), accessed through `.order()` and
`.mode()` in `RenderGate::render`; the winding order and cull mode are opaque
parameter values, modelled as `Nat`. -/
structure FaceCulling where
  order : Nat
  mode : Nat
deriving DecidableEq, Repr

/-- Modelled from the spec: `RenderState` (§3) — "an immutable value object
describing optional blending (equation + two factors), optional depth-test
comparison, optional face-culling (order + mode)"; the accessors
`blending()`, `depth_test()` and `face_culling()` used by
`RenderGate::render` are the fields. -/
structure RenderState where
  blending : Option (Nat × Nat × Nat)
  depth_test : Option Nat
  face_culling : Option FaceCulling
deriving DecidableEq, Repr

namespace RenderGate

/-- The graphics-state mutation performed by `RenderGate::render`
(`pipeline.rs` lines 427-459); the subsequent `TessGate` construction and the
call of the body touch no graphics state. -/
def applyRenderState (g : GraphicsState) (rdr_st : RenderState) : GraphicsState :=
  let g :=
    match rdr_st.blending with
    | some (equation, src_factor, dst_factor) =>
        ((g.set_blending_state .On).set_blending_equation
            equation).set_blending_func src_factor dst_factor
    | none => g.set_blending_state .Off
  let g :=
    match rdr_st.depth_test with
    | some depth_comparison =>
        (g.set_depth_test .On).set_depth_test_comparison depth_comparison
    | none => g.set_depth_test .Off
  let g :=
    match rdr_st.face_culling with
    | some face_culling =>
        ((g.set_face_culling_state .On).set_face_culling_order
            face_culling.order).set_face_culling_mode face_culling.mode
    | none => g.set_face_culling_state .Off
  g

end RenderGate

/-- `Builder` (`pipeline.rs` lines 58-65): holds the binding stack (behind
`Rc<RefCell<..>>` in Rust, embedded by state passing).  The context reference
is not needed beyond its graphics state, which the stack already holds. -/
structure Builder where
  binding_stack : BindingStack
deriving DecidableEq, Repr

namespace Builder

/-- `Builder::new` (`pipeline.rs` lines 75-83): captures the context's
graphics state and constructs the binding stack with `BindingStack::new`. -/
def new (state : GraphicsState) : Builder :=
  { binding_stack := BindingStack.new state }

/-- `Builder::pipeline` (`pipeline.rs` lines 85-123): binds the draw
framebuffer through the graphics state, then hands `Pipeline` and
`ShadingGate` — both wrapping `&self.binding_stack` — to the body `f`.  The
body is embedded as a transformer of the shared stack; `gl::Viewport`,
`gl::ClearColor` and `gl::Clear` are direct driver calls that bypass
`GraphicsState` and mutate no modelled state. -/
def pipeline (b : Builder) (fb_handle : Nat)
    (f : BindingStack → BindingStack) : Builder :=
  let bs := b.binding_stack
  let bs := { bs with state := bs.state.bind_draw_framebuffer fb_handle }
  { binding_stack := f bs }

end Builder

/-- One slot-allocator event: a `Pipeline::bind` on a texture or a buffer, or
the `Drop` of a previously returned `BoundTexture`/`BoundBuffer`. -/
inductive Op where
  | bindTex (target handle : Nat)
  | dropTex (unit : Nat)
  | bindBuf (handle : Nat)
  | dropBuf (binding : Nat)
deriving DecidableEq, Repr

/-- A binding stack together with the ghost lists of outstanding (not yet
dropped) bound-texture units and bound-buffer bindings. -/
structure AllocModel where
  bs : BindingStack
  live_tex : List Nat
  live_buf : List Nat
deriving DecidableEq, Repr

namespace AllocModel

/-- A fresh model: `BindingStack::new` with no outstanding capabilities. -/
def init (g : GraphicsState) : AllocModel :=
  { bs := BindingStack.new g, live_tex := [], live_buf := [] }

/-- One step.  A drop event is only valid for a currently outstanding
capability: in Rust, `Drop` runs exactly once for each `BoundTexture` /
`BoundBuffer` value a `bind` returned. -/
def step (m : AllocModel) : Op → Option AllocModel
  | .bindTex target handle =>
      match Pipeline.bindTexture m.bs target handle with
      | .ok r => some { m with bs := r.2, live_tex := r.1.unit :: m.live_tex }
      | .error _ => none
  | .dropTex unit =>
      if unit ∈ m.live_tex then
        some { m with
          bs := BoundTexture.drop { unit := unit } m.bs
          live_tex := m.live_tex.erase unit }
      else none
  | .bindBuf handle =>
      match Pipeline.bindBuffer m.bs handle with
      | .ok r => some { m with bs := r.2, live_buf := r.1.binding :: m.live_buf }
      | .error _ => none
  | .dropBuf binding =>
      if binding ∈ m.live_buf then
        some { m with
          bs := BoundBuffer.drop { binding := binding } m.bs
          live_buf := m.live_buf.erase binding }
      else none

/-- Run a sequence of events. -/
def run (m : AllocModel) : List Op → Option AllocModel
  | [] => some m
  | op :: ops =>
      match m.step op with
      | some m1 => m1.run ops
      | none => none

end AllocModel

/-- Bind a sequence of textures (`(target, handle)` pairs) one after the
other through `Pipeline::bind`, collecting the allocated units in order. -/
def bindTexSeq : BindingStack → List (Nat × Nat) → List Nat × BindingStack
  | bs, [] => ([], bs)
  | bs, th :: rest =>
      match Pipeline.bindTexture bs th.1 th.2 with
      | .ok r =>
          let tail := bindTexSeq r.2 rest
          (r.1.unit :: tail.1, tail.2)
      | .error _ => ([], bs)

/-- Bind a sequence of buffers one after the other through `Pipeline::bind`,
collecting the allocated bindings in order. -/
def bindBufSeq : BindingStack → List Nat → List Nat × BindingStack
  | bs, [] => ([], bs)
  | bs, h :: rest =>
      match Pipeline.bindBuffer bs h with
      | .ok r =>
          let tail := bindBufSeq r.2 rest
          (r.1.binding :: tail.1, tail.2)
      | .error _ => ([], bs)

/-- A concrete graphics state, used to instantiate witnesses. -/
def g0 : GraphicsState :=
  { bound_draw_framebuffer := 0
    current_texture_unit := 0
    bound_textures := []
    bound_buffer_bases := []
    current_program := 0
    blending_state := .Off
    blending_equation := 0
    blending_src_factor := 0
    blending_dst_factor := 0
    depth_test := .Off
    depth_test_comparison := 0
    face_culling_state := .Off
    face_culling_order := 0
    face_culling_mode := 0 }

/-- The (always successful) result of `Bind<Texture>::bind`, unwrapped; the
error branch is unreachable (the function only ever returns `Ok`). -/
def texBindResult (bs : BindingStack) (target handle : Nat) :
    BoundTexture × BindingStack :=
  match Pipeline.bindTexture bs target handle with
  | .ok r => r
  | .error _ => ({ unit := 0 }, bs)

/-- The (always successful) result of `Bind<Buffer>::bind`, unwrapped. -/
def bufBindResult (bs : BindingStack) (handle : Nat) :
    BoundBuffer × BindingStack :=
  match Pipeline.bindBuffer bs handle with
  | .ok r => r
  | .error _ => ({ binding := 0 }, bs)

lemma lookupAssoc_updateAssoc_self {α : Type} (l : List (Nat × α)) (k : Nat)
    (v : α) : lookupAssoc (updateAssoc l k v) k = some v := by
  induction l with
  | nil => simp [updateAssoc, lookupAssoc]
  | cons kv rest ih =>
      by_cases hk : kv.1 = k
      · simp [updateAssoc, lookupAssoc, hk]
      · simp [updateAssoc, lookupAssoc, hk, ih]

lemma lookupAssoc_updateAssoc_ne {α : Type} (l : List (Nat × α)) (k k0 : Nat)
    (v : α) (h : k0 ≠ k) :
    lookupAssoc (updateAssoc l k v) k0 = lookupAssoc l k0 := by
  have hkk : ¬ k = k0 := fun hh => h hh.symm
  induction l with
  | nil => simp [updateAssoc, lookupAssoc, hkk]
  | cons kv rest ih =>
      by_cases hk : kv.1 = k
      · subst hk
        simp [updateAssoc, lookupAssoc, hkk]
      · simp only [updateAssoc, lookupAssoc, if_neg hk]
        by_cases hk0 : kv.1 = k0
        · simp [lookupAssoc, hk0]
        · simp [lookupAssoc, hk0, ih]

lemma acquire_texture_unit_of_nil (bs : BindingStack)
    (h : bs.free_texture_units = []) :
    bs.acquire_texture_unit =
      (bs.next_texture_unit,
        { bs with next_texture_unit := bs.next_texture_unit + 1 }) := by
  simp [BindingStack.acquire_texture_unit, h]

lemma acquire_texture_unit_of_cons (bs : BindingStack) (u : Nat)
    (rest : List Nat) (h : bs.free_texture_units = u :: rest) :
    bs.acquire_texture_unit = (u, { bs with free_texture_units := rest }) := by
  simp [BindingStack.acquire_texture_unit, h]

lemma acquire_buffer_binding_of_nil (bs : BindingStack)
    (h : bs.free_buffer_bindings = []) :
    bs.acquire_buffer_binding =
      (bs.next_buffer_binding,
        { bs with next_buffer_binding := bs.next_buffer_binding + 1 }) := by
  simp [BindingStack.acquire_buffer_binding, h]

lemma acquire_buffer_binding_of_cons (bs : BindingStack) (u : Nat)
    (rest : List Nat) (h : bs.free_buffer_bindings = u :: rest) :
    bs.acquire_buffer_binding = (u, { bs with free_buffer_bindings := rest }) := by
  simp [BindingStack.acquire_buffer_binding, h]

/-- C3. The uniform type of a bound texture is a pure function of its sample
kind and dimensionality (`boundTextureTy`, copied from `Uniformable::ty`) and
coincides with the fixed table of spec §4.4 (`specSamplerTy`) on all
5 × 4 = 20 combinations (the 15 non-cubemap ones plus the 5 cubemap
variants). -/
theorem bound_texture_uniform_type_matches_table :
    ∀ (s : PxType) (d : Dim), boundTextureTy s d = specSamplerTy s d := by
  intro s d
  cases s <;> cases d <;> rfl

/-- C2. Slot reuse is LIFO: dropping a bound texture (buffer) and then
binding with no intervening acquisition yields the dropped unit (binding)
again, for every stack state; and in the end-to-end scenario on a fresh
stack, two texture binds receive units 0 and 1, and after dropping the first
a third bind receives unit 0, not unit 2. -/
theorem slot_reuse_is_lifo (bs : BindingStack) (bt : BoundTexture)
    (bb : BoundBuffer) (target handle bhandle : Nat) (g : GraphicsState)
    (t1 h1 t2 h2 t3 h3 : Nat) :
    (texBindResult (bt.drop bs) target handle).1.unit = bt.unit ∧
    (bufBindResult (bb.drop bs) bhandle).1.binding = bb.binding ∧
    ((texBindResult (BindingStack.new g) t1 h1).1.unit = 0 ∧
      (texBindResult (texBindResult (BindingStack.new g) t1 h1).2 t2 h2).1.unit
        = 1 ∧
      (texBindResult
          ((texBindResult (BindingStack.new g) t1 h1).1.drop
            (texBindResult (texBindResult (BindingStack.new g) t1 h1).2
              t2 h2).2) t3 h3).1.unit = 0 ∧
      (texBindResult
          ((texBindResult (BindingStack.new g) t1 h1).1.drop
            (texBindResult (texBindResult (BindingStack.new g) t1 h1).2
              t2 h2).2) t3 h3).1.unit ≠ 2) := by
  refine ⟨rfl, rfl, rfl, rfl, rfl, ?_⟩
  show (0 : Nat) ≠ 2
  decide

/-- C7. `Pipeline::bind` always returns `Ok` — the `Err = ()` branch is never
taken, for every texture and every buffer and every stack state. -/
theorem pipeline_bind_always_ok (bs : BindingStack)
    (target handle bhandle : Nat) :
    (Pipeline.bindTexture bs target handle).isOk = true ∧
    (Pipeline.bindBuffer bs bhandle).isOk = true ∧
    Pipeline.bindTexture bs target handle =
      Except.ok (texBindResult bs target handle) ∧
    Pipeline.bindBuffer bs bhandle = Except.ok (bufBindResult bs bhandle) :=
  ⟨rfl, rfl, rfl, rfl⟩

/-- C10. The texture-unit and buffer-binding allocators are independent:
binding or dropping a buffer changes neither `next_texture_unit` nor
`free_texture_units`, and binding or dropping a texture changes neither
`next_buffer_binding` nor `free_buffer_bindings`. -/
theorem allocators_independent (bs : BindingStack)
    (target handle bhandle unit binding : Nat) :
    ((bufBindResult bs bhandle).2.next_texture_unit = bs.next_texture_unit ∧
      (bufBindResult bs bhandle).2.free_texture_units
        = bs.free_texture_units) ∧
    ((BoundBuffer.drop { binding := binding } bs).next_texture_unit
        = bs.next_texture_unit ∧
      (BoundBuffer.drop { binding := binding } bs).free_texture_units
        = bs.free_texture_units) ∧
    ((texBindResult bs target handle).2.next_buffer_binding
        = bs.next_buffer_binding ∧
      (texBindResult bs target handle).2.free_buffer_bindings
        = bs.free_buffer_bindings) ∧
    ((BoundTexture.drop { unit := unit } bs).next_buffer_binding
        = bs.next_buffer_binding ∧
      (BoundTexture.drop { unit := unit } bs).free_buffer_bindings
        = bs.free_buffer_bindings) := by
  refine ⟨?_, ⟨rfl, rfl⟩, ?_, ⟨rfl, rfl⟩⟩
  · rcases hfree : bs.free_buffer_bindings with _ | ⟨u, rest⟩
    · simp [bufBindResult, Pipeline.bindBuffer,
        acquire_buffer_binding_of_nil bs hfree, GraphicsState.bind_buffer_base]
    · simp [bufBindResult, Pipeline.bindBuffer,
        acquire_buffer_binding_of_cons bs u rest hfree,
        GraphicsState.bind_buffer_base]
  · rcases hfree : bs.free_texture_units with _ | ⟨u, rest⟩
    · simp [texBindResult, Pipeline.bindTexture,
        acquire_texture_unit_of_nil bs hfree,
        GraphicsState.set_texture_unit, GraphicsState.bind_texture]
    · simp [texBindResult, Pipeline.bindTexture,
        acquire_texture_unit_of_cons bs u rest hfree,
        GraphicsState.set_texture_unit, GraphicsState.bind_texture]

/-- The all-absent render state. -/
def rsNone : RenderState :=
  { blending := none, depth_test := none, face_culling := none }

/-- The all-present render state with the given parameters. -/
def rsAll (e s d c o m : Nat) : RenderState :=
  { blending := some (e, s, d), depth_test := some c, face_culling := some { order := o, mode := m } }

/-- A concrete graphics state with nonzero stored render parameters. -/
def g1 : GraphicsState :=
  { g0 with blending_equation := 3, blending_src_factor := 4, blending_dst_factor := 5, depth_test_comparison := 6, face_culling_order := 7, face_culling_mode := 8 }

/-- C6. `RenderGate::render`'s state application is total and unconditional:
with all three options absent it turns blending, depth test and face culling
off whatever the prior state; with all three present it turns the three
enable flags on and installs exactly the given equation/factors, comparison
and order/mode; and it is idempotent. -/
theorem render_state_overwrite (g : GraphicsState) (e s d c o m : Nat)
    (rs : RenderState) :
    ((RenderGate.applyRenderState g rsNone).blending_state = .Off ∧
      (RenderGate.applyRenderState g rsNone).depth_test = .Off ∧
      (RenderGate.applyRenderState g rsNone).face_culling_state = .Off) ∧
    ((RenderGate.applyRenderState g (rsAll e s d c o m)).blending_state = .On ∧
      (RenderGate.applyRenderState g (rsAll e s d c o m)).blending_equation = e ∧
      (RenderGate.applyRenderState g (rsAll e s d c o m)).blending_src_factor = s ∧
      (RenderGate.applyRenderState g (rsAll e s d c o m)).blending_dst_factor = d ∧
      (RenderGate.applyRenderState g (rsAll e s d c o m)).depth_test = .On ∧
      (RenderGate.applyRenderState g (rsAll e s d c o m)).depth_test_comparison = c ∧
      (RenderGate.applyRenderState g (rsAll e s d c o m)).face_culling_state = .On ∧
      (RenderGate.applyRenderState g (rsAll e s d c o m)).face_culling_order = o ∧
      (RenderGate.applyRenderState g (rsAll e s d c o m)).face_culling_mode = m) ∧
    RenderGate.applyRenderState (RenderGate.applyRenderState g rs) rs
      = RenderGate.applyRenderState g rs := by
  refine ⟨⟨rfl, rfl, rfl⟩, ⟨rfl, rfl, rfl, rfl, rfl, rfl, rfl, rfl, rfl⟩, ?_⟩
  rcases rs with ⟨_ | ⟨⟨be, bsrc, bdst⟩⟩, _ | dc, _ | ⟨fo, fm⟩⟩ <;>
    simp [RenderGate.applyRenderState, GraphicsState.set_blending_state,
      GraphicsState.set_blending_equation, GraphicsState.set_blending_func,
      GraphicsState.set_depth_test, GraphicsState.set_depth_test_comparison,
      GraphicsState.set_face_culling_state, GraphicsState.set_face_culling_order,
      GraphicsState.set_face_culling_mode]

/-- C9. A `RenderGate::render` call with an axis absent only turns that
axis's enable flag off: the stored blending equation and factors survive a
call with blending absent, the stored depth comparison survives a call with
depth test absent, and the stored culling order and mode survive a call with
face culling absent. -/
theorem disabled_axis_preserves_params (g : GraphicsState) (rs : RenderState) :
    (rs.blending = none →
      (RenderGate.applyRenderState g rs).blending_state = .Off ∧
      (RenderGate.applyRenderState g rs).blending_equation
        = g.blending_equation ∧
      (RenderGate.applyRenderState g rs).blending_src_factor
        = g.blending_src_factor ∧
      (RenderGate.applyRenderState g rs).blending_dst_factor
        = g.blending_dst_factor) ∧
    (rs.depth_test = none →
      (RenderGate.applyRenderState g rs).depth_test = .Off ∧
      (RenderGate.applyRenderState g rs).depth_test_comparison
        = g.depth_test_comparison) ∧
    (rs.face_culling = none →
      (RenderGate.applyRenderState g rs).face_culling_state = .Off ∧
      (RenderGate.applyRenderState g rs).face_culling_order
        = g.face_culling_order ∧
      (RenderGate.applyRenderState g rs).face_culling_mode
        = g.face_culling_mode) := by
  rcases rs with ⟨_ | ⟨⟨be, bsrc, bdst⟩⟩, _ | dc, _ | ⟨fo, fm⟩⟩ <;>
    refine ⟨fun hb => ?_, fun hd => ?_, fun hc => ?_⟩ <;>
      simp_all [RenderGate.applyRenderState, GraphicsState.set_blending_state,
        GraphicsState.set_blending_equation, GraphicsState.set_blending_func,
        GraphicsState.set_depth_test, GraphicsState.set_depth_test_comparison,
        GraphicsState.set_face_culling_state,
        GraphicsState.set_face_culling_order,
        GraphicsState.set_face_culling_mode]

/-- Witness for C9: a concrete call with all three axes absent on `g1`, whose
stored parameters are nonzero. -/
theorem disabled_axis_preserves_params_witness :
    ((RenderGate.applyRenderState g1 rsNone).blending_state = .Off ∧
      (RenderGate.applyRenderState g1 rsNone).blending_equation
        = g1.blending_equation ∧
      (RenderGate.applyRenderState g1 rsNone).blending_src_factor
        = g1.blending_src_factor ∧
      (RenderGate.applyRenderState g1 rsNone).blending_dst_factor
        = g1.blending_dst_factor) ∧
    ((RenderGate.applyRenderState g1 rsNone).depth_test = .Off ∧
      (RenderGate.applyRenderState g1 rsNone).depth_test_comparison
        = g1.depth_test_comparison) ∧
    ((RenderGate.applyRenderState g1 rsNone).face_culling_state = .Off ∧
      (RenderGate.applyRenderState g1 rsNone).face_culling_order
        = g1.face_culling_order ∧
      (RenderGate.applyRenderState g1 rsNone).face_culling_mode
        = g1.face_culling_mode) :=
  ⟨(disabled_axis_preserves_params g1 rsNone).1 rfl,
   (disabled_axis_preserves_params g1 rsNone).2.1 rfl,
   (disabled_axis_preserves_params g1 rsNone).2.2 rfl⟩

/-- A pipeline body that binds one texture and lets the returned
`BoundTexture` go out of scope (so its `Drop` runs), as any body using a
texture does. -/
def bindOneTextureAndDrop (bs : BindingStack) : BindingStack :=
  (texBindResult bs 0 5).1.drop (texBindResult bs 0 5).2

/-- Counterexample to C4.  Two `pipeline` calls on one `Builder` share the
`BindingStack` built in `Builder::new`: after a first pipeline whose body
bound one texture (and dropped it on scope exit), the second pipeline call
hands its body — here the identity, so the builder's stack afterwards is
exactly the stack that body received — a stack with `next_texture_unit = 1`
and free list `[0]`, not a newly constructed one with counter `0` and empty
free list. -/
theorem binding_stack_carries_over_between_pipelines :
    (((Builder.new g0).pipeline 1 bindOneTextureAndDrop).pipeline 2
        (fun bs => bs)).binding_stack.next_texture_unit = 1 ∧
    ¬ (((Builder.new g0).pipeline 1 bindOneTextureAndDrop).pipeline 2
        (fun bs => bs)).binding_stack.next_texture_unit = 0 ∧
    (((Builder.new g0).pipeline 1 bindOneTextureAndDrop).pipeline 2
        (fun bs => bs)).binding_stack.free_texture_units = [0] := by
  refine ⟨rfl, ?_, rfl⟩
  intro h
  simp [Builder.new, Builder.pipeline, bindOneTextureAndDrop, texBindResult,
    Pipeline.bindTexture, BindingStack.new, BindingStack.acquire_texture_unit,
    BoundTexture.drop] at h

/-- C4, amended.  The `BindingStack` is constructed once in `Builder::new`
(both counters 0 and both free lists empty there, so the first `pipeline`
call on a fresh `Builder` does enter its body with a fresh stack), and every
`Builder::pipeline` call hands its body the builder's current stack —
allocator state untouched, only the graphics state's draw framebuffer
rebound — keeping the body's resulting stack in the builder; consequently a
second `pipeline` call on the same `Builder` hands its body the allocator
state left by the first body rather than a fresh stack. -/
theorem binding_stack_fresh_per_builder (g : GraphicsState) (b : Builder)
    (fb fb2 : Nat) (f : BindingStack → BindingStack) :
    (Builder.new g).binding_stack.next_texture_unit = 0 ∧
    (Builder.new g).binding_stack.free_texture_units = [] ∧
    (Builder.new g).binding_stack.next_buffer_binding = 0 ∧
    (Builder.new g).binding_stack.free_buffer_bindings = [] ∧
    (b.pipeline fb f).binding_stack
      = f { b.binding_stack with
            state := b.binding_stack.state.bind_draw_framebuffer fb } ∧
    ((b.pipeline fb f).pipeline fb2 (fun bs => bs)).binding_stack
      = { f { b.binding_stack with
              state := b.binding_stack.state.bind_draw_framebuffer fb } with
          state :=
            (f { b.binding_stack with
                 state :=
                   b.binding_stack.state.bind_draw_framebuffer
                     fb }).state.bind_draw_framebuffer fb2 } :=
  ⟨rfl, rfl, rfl, rfl, rfl, rfl⟩

lemma bindTexSeq_spec (ths : List (Nat × Nat)) :
    ∀ bs : BindingStack, bs.free_texture_units = [] →
      (bindTexSeq bs ths).1 = List.range' bs.next_texture_unit ths.length ∧
      (bindTexSeq bs ths).2.free_texture_units = [] := by
  induction ths with
  | nil => intro bs h; exact ⟨rfl, h⟩
  | cons th rest ih =>
      intro bs h
      obtain ⟨st, nxt, free, nb, fb⟩ := bs
      change free = [] at h
      subst h
      refine ⟨?_, ?_⟩
      · show
          (nxt ::
            (bindTexSeq ⟨(st.set_texture_unit nxt).bind_texture th.1 th.2,
              nxt + 1, [], nb, fb⟩ rest).1)
            = List.range' nxt (rest.length + 1)
        rw [List.range'_succ nxt rest.length 1]
        exact congrArg (List.cons nxt) (ih _ rfl).1
      · show
          (bindTexSeq ⟨(st.set_texture_unit nxt).bind_texture th.1 th.2,
            nxt + 1, [], nb, fb⟩ rest).2.free_texture_units = []
        exact (ih _ rfl).2

lemma bindBufSeq_spec (bhs : List Nat) :
    ∀ bs : BindingStack, bs.free_buffer_bindings = [] →
      (bindBufSeq bs bhs).1 = List.range' bs.next_buffer_binding bhs.length ∧
      (bindBufSeq bs bhs).2.free_buffer_bindings = [] := by
  induction bhs with
  | nil => intro bs h; exact ⟨rfl, h⟩
  | cons bh rest ih =>
      intro bs h
      obtain ⟨st, nxt, free, nb, fb⟩ := bs
      change fb = [] at h
      subst h
      refine ⟨?_, ?_⟩
      · show
          (nb ::
            (bindBufSeq ⟨st.bind_buffer_base bh nb, nxt, free, nb + 1, []⟩
              rest).1)
            = List.range' nb (rest.length + 1)
        rw [List.range'_succ nb rest.length 1]
        exact congrArg (List.cons nb) (ih _ rfl).1
      · show
          (bindBufSeq ⟨st.bind_buffer_base bh nb, nxt, free, nb + 1, []⟩
            rest).2.free_buffer_bindings = []
        exact (ih _ rfl).2

/-- C5. Binding any list of textures (and likewise buffers) through
`Pipeline::bind` on a fresh `BindingStack` with no releases yields exactly
the unit ids `0, 1, …, N-1` — strictly increasing, pairwise distinct and
starting at 0. -/
theorem fresh_binds_yield_increasing_ids (g : GraphicsState)
    (ths : List (Nat × Nat)) (bhs : List Nat) :
    (bindTexSeq (BindingStack.new g) ths).1 = List.range ths.length ∧
    (bindTexSeq (BindingStack.new g) ths).1.Pairwise (fun a b => a < b) ∧
    (bindTexSeq (BindingStack.new g) ths).1.Nodup ∧
    (bindBufSeq (BindingStack.new g) bhs).1 = List.range bhs.length ∧
    (bindBufSeq (BindingStack.new g) bhs).1.Pairwise (fun a b => a < b) ∧
    (bindBufSeq (BindingStack.new g) bhs).1.Nodup := by
  have ht : (bindTexSeq (BindingStack.new g) ths).1 = List.range ths.length := by
    rw [List.range_eq_range']
    exact (bindTexSeq_spec ths (BindingStack.new g) rfl).1
  have hb : (bindBufSeq (BindingStack.new g) bhs).1 = List.range bhs.length := by
    rw [List.range_eq_range']
    exact (bindBufSeq_spec bhs (BindingStack.new g) rfl).1
  refine ⟨ht, ?_, ?_, hb, ?_, ?_⟩
  · rw [ht]; exact List.pairwise_lt_range ths.length
  · rw [ht]; exact List.nodup_range ths.length
  · rw [hb]; exact List.pairwise_lt_range bhs.length
  · rw [hb]; exact List.nodup_range bhs.length

/-- Well-formedness of the texture-unit allocator: the free list has no
duplicates and only holds ids below the counter.  (Every state reachable from
a fresh stack has this shape; compare the partition invariant.) -/
def TexAllocWF (bs : BindingStack) : Prop :=
  bs.free_texture_units.Nodup ∧
  ∀ u ∈ bs.free_texture_units, u < bs.next_texture_unit

/-- C8. Binding the same `(target, handle)` twice with no intervening release
is not deduplicated: the two `Pipeline::bind` calls allocate two distinct
units, the texture ends up hardware-bound at both units, and the allocated
unit never depends on which resource is being bound. -/
theorem bind_same_resource_not_deduplicated (bs : BindingStack)
    (target handle t2 h2 : Nat) (hwf : TexAllocWF bs) :
    (texBindResult bs target handle).1.unit
        ≠ (texBindResult (texBindResult bs target handle).2 target
            handle).1.unit ∧
    lookupAssoc
        (texBindResult (texBindResult bs target handle).2 target
          handle).2.state.bound_textures
        (texBindResult bs target handle).1.unit = some (target, handle) ∧
    lookupAssoc
        (texBindResult (texBindResult bs target handle).2 target
          handle).2.state.bound_textures
        (texBindResult (texBindResult bs target handle).2 target
          handle).1.unit = some (target, handle) ∧
    (texBindResult bs t2 h2).1.unit = (texBindResult bs target handle).1.unit
    := by
  have hwf2 : bs.free_texture_units.Nodup ∧
      ∀ u ∈ bs.free_texture_units, u < bs.next_texture_unit := hwf
  obtain ⟨hnd, hlt⟩ := hwf2
  obtain ⟨st, nxt, free, nb, fb⟩ := bs
  change free.Nodup at hnd
  change ∀ u ∈ free, u < nxt at hlt
  rcases free with _ | ⟨f, rest⟩
  · have hne : ¬ nxt = nxt + 1 := by omega
    refine ⟨hne, ?_, ?_, rfl⟩
    · show lookupAssoc (updateAssoc (updateAssoc st.bound_textures nxt
          (target, handle)) (nxt + 1) (target, handle)) nxt
        = some (target, handle)
      rw [lookupAssoc_updateAssoc_ne _ _ _ _ hne, lookupAssoc_updateAssoc_self]
    · show lookupAssoc (updateAssoc (updateAssoc st.bound_textures nxt
          (target, handle)) (nxt + 1) (target, handle)) (nxt + 1)
        = some (target, handle)
      rw [lookupAssoc_updateAssoc_self]
  · rcases rest with _ | ⟨f2, rest2⟩
    · have hflt : f < nxt := hlt f (by simp)
      have hne : ¬ f = nxt := by omega
      refine ⟨hne, ?_, ?_, rfl⟩
      · show lookupAssoc (updateAssoc (updateAssoc st.bound_textures f
            (target, handle)) nxt (target, handle)) f = some (target, handle)
        rw [lookupAssoc_updateAssoc_ne _ _ _ _ hne,
          lookupAssoc_updateAssoc_self]
      · show lookupAssoc (updateAssoc (updateAssoc st.bound_textures f
            (target, handle)) nxt (target, handle)) nxt
          = some (target, handle)
        rw [lookupAssoc_updateAssoc_self]
    · have hne : ¬ f = f2 := by
        intro hff
        subst hff
        exact (List.nodup_cons.mp hnd).1 (by simp)
      refine ⟨hne, ?_, ?_, rfl⟩
      · show lookupAssoc (updateAssoc (updateAssoc st.bound_textures f
            (target, handle)) f2 (target, handle)) f = some (target, handle)
        rw [lookupAssoc_updateAssoc_ne _ _ _ _ hne,
          lookupAssoc_updateAssoc_self]
      · show lookupAssoc (updateAssoc (updateAssoc st.bound_textures f
            (target, handle)) f2 (target, handle)) f2 = some (target, handle)
        rw [lookupAssoc_updateAssoc_self]

/-- Witness for C8: binding texture `(0, 5)` twice on a fresh stack. -/
theorem bind_same_resource_not_deduplicated_witness :
    (texBindResult (BindingStack.new g0) 0 5).1.unit
        ≠ (texBindResult (texBindResult (BindingStack.new g0) 0 5).2 0
            5).1.unit ∧
    lookupAssoc
        (texBindResult (texBindResult (BindingStack.new g0) 0 5).2 0
          5).2.state.bound_textures
        (texBindResult (BindingStack.new g0) 0 5).1.unit = some (0, 5) ∧
    lookupAssoc
        (texBindResult (texBindResult (BindingStack.new g0) 0 5).2 0
          5).2.state.bound_textures
        (texBindResult (texBindResult (BindingStack.new g0) 0 5).2 0
          5).1.unit = some (0, 5) ∧
    (texBindResult (BindingStack.new g0) 7 9).1.unit
      = (texBindResult (BindingStack.new g0) 0 5).1.unit :=
  bind_same_resource_not_deduplicated (BindingStack.new g0) 0 5 7 9
    ⟨List.nodup_nil, by simp [BindingStack.new]⟩

/-- The single-allocator invariant: outstanding ids and free-list ids are
duplicate-free, disjoint, and together exactly the interval `[0, next)`. -/
def SlotInv (next : Nat) (free live : List Nat) : Prop :=
  live.Nodup ∧ free.Nodup ∧ (∀ u ∈ live, u ∉ free) ∧
  (∀ u, u < next ↔ u ∈ live ∨ u ∈ free)

lemma slotInv_acquire_of_nil {next : Nat} {live : List Nat}
    (h : SlotInv next [] live) : SlotInv (next + 1) [] (next :: live) := by
  obtain ⟨hl, -, -, hc⟩ := h
  refine ⟨List.nodup_cons.mpr ⟨?_, hl⟩, List.nodup_nil, ?_, ?_⟩
  · intro hmem
    have := (hc next).mpr (Or.inl hmem)
    omega
  · intro u hu
    simp
  · intro u
    have h1 := hc u
    simp only [List.mem_cons, List.not_mem_nil, or_false] at h1 ⊢
    constructor
    · intro hlt
      by_cases he : u = next
      · exact Or.inl he
      · exact Or.inr (h1.mp (by omega))
    · intro h2
      rcases h2 with he | hm
      · omega
      · have := h1.mpr hm
        omega

lemma slotInv_acquire_of_cons {next f : Nat} {rest live : List Nat}
    (h : SlotInv next (f :: rest) live) : SlotInv next rest (f :: live) := by
  obtain ⟨hl, hf, hd, hc⟩ := h
  have hff : f ∉ rest := (List.nodup_cons.mp hf).1
  have hfr : rest.Nodup := (List.nodup_cons.mp hf).2
  have hfl : f ∉ live := fun hmem => (hd f hmem) (by simp)
  refine ⟨List.nodup_cons.mpr ⟨hfl, hl⟩, hfr, ?_, ?_⟩
  · intro u hu
    rcases List.mem_cons.mp hu with he | hm
    · subst he
      exact hff
    · intro hur
      exact (hd u hm) (List.mem_cons.mpr (Or.inr hur))
  · intro u
    have h1 := hc u
    simp only [List.mem_cons] at h1 ⊢
    constructor
    · intro hlt
      rcases h1.mp hlt with hm | hfm
      · exact Or.inl (Or.inr hm)
      · rcases hfm with he | hr
        · exact Or.inl (Or.inl he)
        · exact Or.inr hr
    · intro h2
      apply h1.mpr
      tauto

lemma slotInv_release {next u : Nat} {free live : List Nat}
    (h : SlotInv next free live) (hu : u ∈ live) :
    SlotInv next (u :: free) (live.erase u) := by
  obtain ⟨hl, hf, hd, hc⟩ := h
  have hun : u ∉ free := hd u hu
  refine ⟨hl.erase u, List.nodup_cons.mpr ⟨hun, hf⟩, ?_, ?_⟩
  · intro v hv
    have hv2 := hl.mem_erase_iff.mp hv
    intro hvc
    rcases List.mem_cons.mp hvc with he | hm
    · exact hv2.1 he
    · exact (hd v hv2.2) hm
  · intro v
    have h1 := hc v
    constructor
    · intro hlt
      rcases h1.mp hlt with hm | hm
      · by_cases he : v = u
        · exact Or.inr (by simp [he])
        · exact Or.inl (hl.mem_erase_iff.mpr ⟨he, hm⟩)
      · exact Or.inr (List.mem_cons.mpr (Or.inr hm))
    · intro h2
      apply h1.mpr
      rcases h2 with hm | hm
      · exact Or.inl (hl.mem_erase_iff.mp hm).2
      · rcases List.mem_cons.mp hm with he | hfm
        · subst he
          exact Or.inl hu
        · exact Or.inr hfm

/-- Both allocators of a model satisfy the partition invariant. -/
def AllocInv (m : AllocModel) : Prop :=
  SlotInv m.bs.next_texture_unit m.bs.free_texture_units m.live_tex ∧
  SlotInv m.bs.next_buffer_binding m.bs.free_buffer_bindings m.live_buf

lemma step_preserves_inv {m m' : AllocModel} {op : Op}
    (hinv : AllocInv m) (hstep : m.step op = some m') : AllocInv m' := by
  have hinv2 :
      SlotInv m.bs.next_texture_unit m.bs.free_texture_units m.live_tex ∧
        SlotInv m.bs.next_buffer_binding m.bs.free_buffer_bindings m.live_buf :=
    hinv
  obtain ⟨ht, hb⟩ := hinv2
  cases op with
  | bindTex target handle =>
      obtain ⟨⟨st, nxt, free, nb, fb⟩, mlt, mlb⟩ := m
      rcases free with _ | ⟨f, rest⟩
      · have h2 : (⟨⟨(st.set_texture_unit nxt).bind_texture target handle,
            nxt + 1, [], nb, fb⟩, nxt :: mlt, mlb⟩ : AllocModel) = m' :=
          Option.some.inj hstep
        subst h2
        exact ⟨slotInv_acquire_of_nil ht, hb⟩
      · have h2 : (⟨⟨(st.set_texture_unit f).bind_texture target handle,
            nxt, rest, nb, fb⟩, f :: mlt, mlb⟩ : AllocModel) = m' :=
          Option.some.inj hstep
        subst h2
        exact ⟨slotInv_acquire_of_cons ht, hb⟩
  | dropTex unit =>
      obtain ⟨⟨st, nxt, free, nb, fb⟩, mlt, mlb⟩ := m
      by_cases hmem : unit ∈ mlt
      · have h2 : (⟨⟨st, nxt, unit :: free, nb, fb⟩, mlt.erase unit, mlb⟩ :
            AllocModel) = m' := by
          have h3 := hstep
          simp only [AllocModel.step] at h3
          rw [if_pos hmem] at h3
          exact Option.some.inj h3
        subst h2
        exact ⟨slotInv_release ht hmem, hb⟩
      · exfalso
        have h3 := hstep
        simp only [AllocModel.step] at h3
        rw [if_neg hmem] at h3
        exact Option.noConfusion h3
  | bindBuf handle =>
      obtain ⟨⟨st, nxt, free, nb, fb⟩, mlt, mlb⟩ := m
      rcases fb with _ | ⟨f, rest⟩
      · have h2 : (⟨⟨st.bind_buffer_base handle nb, nxt, free,
            nb + 1, []⟩, mlt, nb :: mlb⟩ : AllocModel) = m' :=
          Option.some.inj hstep
        subst h2
        exact ⟨ht, slotInv_acquire_of_nil hb⟩
      · have h2 : (⟨⟨st.bind_buffer_base handle f, nxt, free,
            nb, rest⟩, mlt, f :: mlb⟩ : AllocModel) = m' :=
          Option.some.inj hstep
        subst h2
        exact ⟨ht, slotInv_acquire_of_cons hb⟩
  | dropBuf binding =>
      obtain ⟨⟨st, nxt, free, nb, fb⟩, mlt, mlb⟩ := m
      by_cases hmem : binding ∈ mlb
      · have h2 : (⟨⟨st, nxt, free, nb, binding :: fb⟩, mlt,
            mlb.erase binding⟩ : AllocModel) = m' := by
          have h3 := hstep
          simp only [AllocModel.step] at h3
          rw [if_pos hmem] at h3
          exact Option.some.inj h3
        subst h2
        exact ⟨ht, slotInv_release hb hmem⟩
      · exfalso
        have h3 := hstep
        simp only [AllocModel.step] at h3
        rw [if_neg hmem] at h3
        exact Option.noConfusion h3

lemma run_preserves_inv (ops : List Op) :
    ∀ m m' : AllocModel, AllocInv m → m.run ops = some m' → AllocInv m' := by
  induction ops with
  | nil =>
      intro m m' h hr
      have h2 : m = m' := Option.some.inj hr
      subst h2
      exact h
  | cons op rest ih =>
      intro m m' h hr
      rcases hs : m.step op with _ | m1
      · simp [AllocModel.run, hs] at hr
      · simp only [AllocModel.run, hs] at hr
        exact ih m1 m' (step_preserves_inv h hs) hr

lemma allocInv_init (g : GraphicsState) : AllocInv (AllocModel.init g) := by
  refine ⟨⟨List.nodup_nil, List.nodup_nil, ?_, ?_⟩,
    ⟨List.nodup_nil, List.nodup_nil, ?_, ?_⟩⟩ <;>
    simp [AllocModel.init, BindingStack.new]

/-- C1. For every sequence of `Pipeline::bind` acquisitions and
`BoundTexture`/`BoundBuffer` drops starting from a fresh `BindingStack`, at
every reachable state the outstanding slot ids and the free list are
disjoint, and every id in `[0, next_counter)` lies in exactly one of them —
separately for texture units and buffer bindings. -/
theorem slot_allocator_partition_invariant (g : GraphicsState)
    (ops : List Op) (m : AllocModel)
    (h : (AllocModel.init g).run ops = some m) :
    (∀ u, ¬ (u ∈ m.live_tex ∧ u ∈ m.bs.free_texture_units)) ∧
    (∀ u, u < m.bs.next_texture_unit ↔
      (u ∈ m.live_tex ∨ u ∈ m.bs.free_texture_units)) ∧
    (∀ u, ¬ (u ∈ m.live_buf ∧ u ∈ m.bs.free_buffer_bindings)) ∧
    (∀ u, u < m.bs.next_buffer_binding ↔
      (u ∈ m.live_buf ∨ u ∈ m.bs.free_buffer_bindings)) := by
  have h4 :
      SlotInv m.bs.next_texture_unit m.bs.free_texture_units m.live_tex ∧
        SlotInv m.bs.next_buffer_binding m.bs.free_buffer_bindings m.live_buf :=
    run_preserves_inv ops (AllocModel.init g) m (allocInv_init g) h
  obtain ⟨⟨-, -, hd1, hc1⟩, ⟨-, -, hd2, hc2⟩⟩ := h4
  exact ⟨fun u hu => hd1 u hu.1 hu.2, hc1,
    fun u hu => hd2 u hu.1 hu.2, hc2⟩

/-- A concrete event sequence: three texture binds, a buffer bind, a texture
drop (after which unit 0 is reused) and a buffer drop. -/
def ops0 : List Op :=
  [Op.bindTex 0 5, Op.bindBuf 7, Op.bindTex 1 6, Op.dropTex 0,
    Op.bindTex 2 8, Op.dropBuf 0]

/-- Witness for C1: the partition invariant evaluated after running `ops0`
from a fresh stack over `g0`. -/
theorem slot_allocator_partition_invariant_witness :
    (∀ u, ¬ (u ∈ (((AllocModel.init g0).run ops0).getD
          (AllocModel.init g0)).live_tex ∧
        u ∈ (((AllocModel.init g0).run ops0).getD
          (AllocModel.init g0)).bs.free_texture_units)) ∧
    (∀ u, u < (((AllocModel.init g0).run ops0).getD
          (AllocModel.init g0)).bs.next_texture_unit ↔
      (u ∈ (((AllocModel.init g0).run ops0).getD
          (AllocModel.init g0)).live_tex ∨
        u ∈ (((AllocModel.init g0).run ops0).getD
          (AllocModel.init g0)).bs.free_texture_units)) ∧
    (∀ u, ¬ (u ∈ (((AllocModel.init g0).run ops0).getD
          (AllocModel.init g0)).live_buf ∧
        u ∈ (((AllocModel.init g0).run ops0).getD
          (AllocModel.init g0)).bs.free_buffer_bindings)) ∧
    (∀ u, u < (((AllocModel.init g0).run ops0).getD
          (AllocModel.init g0)).bs.next_buffer_binding ↔
      (u ∈ (((AllocModel.init g0).run ops0).getD
          (AllocModel.init g0)).live_buf ∨
        u ∈ (((AllocModel.init g0).run ops0).getD
          (AllocModel.init g0)).bs.free_buffer_bindings)) :=
  slot_allocator_partition_invariant g0 ops0
    (((AllocModel.init g0).run ops0).getD (AllocModel.init g0)) (by decide)

end Luminance
